import Mathlib

/-!
# ctrlgpio: a one-pin GPIO sysfs driver

Shallow embedding of `drivers/sysfs_gpio/ctrlgpio.c`.

* The module's globals (`gpioLED`, `ledName`, `mode`, `ledOn`, `ebb_kobj`) are fields of
  `State`; every function of the module is a state transformer.
* The two kernel facilities the module talks to are part of the state as well: the sysfs
  registry (`State.sysfs`) and the chronological trace of GPIO calls (`State.hw`).
  What those facilities report back to `ebbLED_init` is an input (`Env`).
* Text is `List Char`; a C string ends at the first NUL byte.
* The module is written for the BeagleBone Black, a 32-bit ARM board: `int`, `long`,
  `size_t`, `ssize_t` and pointers all have 32 bits.
* Two statements of the source store outside the object they name.  `mode_store` hands
  `mode` to `sscanf` by value, so a number that is read is stored through the `int` taken
  for an `int *`: the handler then has no result (`Fault`).  `ebbLED_init` prints the name
  with an unbounded `sprintf` into `char ledName[7]`: bytes past the array are kept in
  `State.past_ledName`, where a read through the pointer `ledName` finds them, and what
  `gpioLED` holds afterwards is then up to the build (`Env.gpioLED_after_overflow`).
* `printk` only logs and is left out.  So are the global `direction` and its two handlers:
  their attribute is commented out of `ebb_attrs`, so nothing can call them.
-/

namespace CtrlGpio

/-! ## Machine integers and errno values -/

/-- The value an `unsigned int` has when it is read back as an `int` (32 bit, two's
complement): this is what a `%d` conversion does with an `unsigned int` argument. -/
def toInt32 (n : Nat) : Int :=
  if n % 2 ^ 32 < 2 ^ 31 then ((n % 2 ^ 32 : Nat) : Int) else ((n % 2 ^ 32 : Nat) : Int) - 2 ^ 32

/-- Truncation of an integer to `int`. -/
def wrapInt (v : Int) : Int :=
  toInt32 (v % 2 ^ 32).toNat

/-- The value a `size_t` has when it is returned as an `ssize_t` (32 bit). -/
def toSsize (n : Nat) : Int :=
  toInt32 n

def ENOMEM : Int := 12
def EINVAL : Int := 22
def EBUSY : Int := 16
def EEXIST : Int := 17

/-! ## Formatted output and input -/

/-- The terminator of a C string. -/
def NUL : Char := '\x00'

/-- Text of a `%d` conversion. -/
def fmt_d (v : Int) : List Char :=
  if v < 0 then '-' :: Nat.toDigits 10 (-v).toNat else Nat.toDigits 10 v.toNat

/-- All bytes that `sprintf(ledName, "gpio%d", gpioLED)` stores, the terminator included. -/
def sprintf_gpio (gpioLED : Nat) : List Char :=
  "gpio".toList ++ fmt_d (toInt32 gpioLED) ++ [NUL]

/-- The C string that starts at the first of these bytes: the bytes before the first NUL. -/
def cstr (a : List Char) : List Char :=
  a.takeWhile (fun c => c != NUL)

/-- White space as `skip_spaces` sees it. -/
def isSpace (c : Char) : Bool :=
  c == ' ' || c == '\t' || c == '\n' || c == '\x0b' || c == '\x0c' || c == '\r'

/-- Value of a run of decimal digits. -/
def decValue (ds : List Char) : Nat :=
  ds.foldl (fun a c => 10 * a + (c.toNat - '0'.toNat)) 0

/-- The `%d` conversion of `sscanf(buf, "%du", ...)`: leading white space is skipped, an
optional minus sign and a non-empty run of digits are read, and the value is truncated to
`int`.  `none` when no number starts the text, in which case nothing is stored.  The `u`
that follows in the format is matched after the store and stores nothing. -/
def sscanf_d (buf : List Char) : Option Int :=
  match buf.dropWhile isSpace with
  | '-' :: rest =>
    if (rest.takeWhile Char.isDigit).isEmpty then none
    else some (wrapInt (-(decValue (rest.takeWhile Char.isDigit) : Int)))
  | str =>
    if (str.takeWhile Char.isDigit).isEmpty then none
    else some (wrapInt (decValue (str.takeWhile Char.isDigit) : Int))

/-! ## The kernel facilities -/

/-- One call into the GPIO layer, with its arguments and, where the call returns one, the
status it reported. -/
inductive HwCall where
  | gpio_request (gpio : Nat) (label : List Char) (ret : Int)
  | gpio_direction_output (gpio : Nat) (value : Int) (ret : Int)
  | gpio_export (gpio : Nat) (direction_may_change : Bool) (ret : Int)
  | gpio_set_value (gpio : Nat) (value : Int)
  | gpio_unexport (gpio : Nat)
  | gpio_free (gpio : Nat)
  deriving DecidableEq, Repr

/-- A registered attribute group: its name, the C string read through the `name` pointer,
and the names of its attributes. -/
structure AttrGroup where
  name : List Char
  attrs : List (List Char)
  deriving DecidableEq, Repr

/-- A kobject present in sysfs, with the groups created below it. -/
structure Kobject where
  name : List Char
  groups : List AttrGroup
  deriving DecidableEq, Repr

/-- Why a handler has no result. -/
inductive Fault where
  /-- The `%d` conversion of `sscanf` stored `value` through `ptr`, an `int` taken for an
  `int *`.  For `ptr` 0 or 1, the two values of a valid mode, the address lies in the
  unmapped first page and the kernel kills the writer; for any other value the store hits
  memory that is not the module's to write.  Nothing after the `sscanf` call is run. -/
  | store_through_int (ptr : Int) (value : Int)
  deriving DecidableEq, Repr

deriving instance DecidableEq for Except

/-- What the surroundings of the module contribute to `ebbLED_init`: the statuses the kernel
reports and the effect of the build's data layout. -/
structure Env where
  /-- `kobject_create_and_add` returned a kobject (not `NULL`). -/
  kobject_create_ok : Bool
  sysfs_create_group_ret : Int
  gpio_request_ret : Int
  gpio_direction_output_ret : Int
  gpio_export_ret : Int
  /-- What `gpioLED` holds when it is read again after `sprintf` stored bytes past
  `ledName`; the build decides what lies there.  Not consulted when the name fits. -/
  gpioLED_after_overflow : Nat
  deriving DecidableEq, Repr

/-! ## The module -/

/-- The globals of the module together with the sysfs registry and the GPIO trace. -/
structure State where
  /-- The `unsigned int` module parameter. -/
  gpioLED : Nat
  /-- The array `char ledName[7]`. -/
  ledName : List Char
  mode : Int
  ledOn : Int
  /-- The pointer `ebb_kobj`: `none` is `NULL`, otherwise the kobject it was set to. -/
  ebb_kobj : Option (List Char)
  sysfs : List Kobject
  hw : List HwCall
  /-- The bytes `sprintf` stored behind the last element of `ledName`. -/
  past_ledName : List Char
  deriving DecidableEq, Repr

/-- The state of a module that has just been linked in, with its parameter set. -/
def initial (gpioLED : Nat) : State :=
  { gpioLED := gpioLED, ledName := "gpioXXX".toList, mode := 0, ledOn := 0,
    ebb_kobj := none, sysfs := [], hw := [], past_ledName := [] }

/-- The size of `ledName`. -/
def LEDNAME_SIZE : Nat := 7

/-- Effect of `sprintf(ledName, "gpio%d", gpioLED)`: the first seven bytes land in the array
and any further byte behind it.  When bytes were stored behind the array, `gpioLED` holds
afterwards what the build made of it. -/
def sprintf_ledName (env : Env) (s : State) : State :=
  let bytes := sprintf_gpio s.gpioLED
  { s with
    ledName := bytes.take LEDNAME_SIZE ++ s.ledName.drop bytes.length
    past_ledName := bytes.drop LEDNAME_SIZE
    gpioLED := if bytes.length ≤ LEDNAME_SIZE then s.gpioLED else env.gpioLED_after_overflow }

/-- The C string found through the pointer `ledName`, which is what `attr_group.name` is:
the read starts in the array and runs on into the bytes behind it. -/
def attr_group_name (s : State) : List Char :=
  cstr (s.ledName ++ s.past_ledName)

/-- Effect of `kobject_put(ebb_kobj)`: the module holds the only reference, so the kobject
and everything below it leave sysfs; `kobject_put(NULL)` does nothing. -/
def kobject_put (s : State) : State :=
  match s.ebb_kobj with
  | none => s
  | some k => { s with sysfs := s.sysfs.filter (fun o => o.name != k) }

/-- Effect of a successful `sysfs_create_group(ebb_kobj, &attr_group)`. -/
def sysfs_add_group (s : State) (g : AttrGroup) : State :=
  { s with sysfs := s.sysfs.map (fun o =>
      if some o.name = s.ebb_kobj then { o with groups := o.groups ++ [g] } else o) }

/-- Append one call to the GPIO trace. -/
def hwCall (s : State) (c : HwCall) : State :=
  { s with hw := s.hw ++ [c] }

/-- The read handler `mode_show`: the text placed in the buffer with the value returned,
and the state afterwards.  No text when the `switch` matches no case. -/
def mode_show (s : State) : Option (List Char × Int) × State :=
  if s.mode = 0 then (some ("off\n".toList, ("off\n".toList.length : Int)), s)
  else if s.mode = 1 then (some ("on\n".toList, ("on\n".toList.length : Int)), s)
  else (none, s)

/-- The write handler `mode_store`: the value returned and the state afterwards, or the
fault that ends the call.  `mode` is handed to `sscanf` by value: when the buffer starts
with a number the conversion stores it through that `int` and the call ends there; when it
does not, nothing is stored and the handler goes on to `gpio_set_value` and
`return count`. -/
def mode_store (s : State) (buf : List Char) (count : Nat) : Except Fault (Int × State) :=
  match sscanf_d buf with
  | some v => Except.error (Fault.store_through_int s.mode v)
  | none =>
    let s := hwCall s (HwCall.gpio_set_value s.gpioLED s.mode)
    Except.ok (toSsize count, s)

/-- The function `ebbLED_init`: the value returned and the state afterwards. -/
def ebbLED_init (env : Env) (s : State) : Int × State :=
  let s := sprintf_ledName env s
  if env.kobject_create_ok = false then
    (-ENOMEM, { s with ebb_kobj := none })
  else
    let s := { s with ebb_kobj := some "ebb".toList,
                      sysfs := s.sysfs ++ [{ name := "ebb".toList, groups := [] }] }
    let result := env.sysfs_create_group_ret
    if result ≠ 0 then
      (result, kobject_put s)
    else
      let s := sysfs_add_group s { name := attr_group_name s, attrs := ["mode".toList] }
      let s := { s with ledOn := 1 }
      let s := hwCall s (HwCall.gpio_request s.gpioLED "sysfs".toList env.gpio_request_ret)
      let s := hwCall s
        (HwCall.gpio_direction_output s.gpioLED s.ledOn env.gpio_direction_output_ret)
      let s := hwCall s (HwCall.gpio_export s.gpioLED true env.gpio_export_ret)
      (result, s)

/-- The function `ebbLED_exit`. -/
def ebbLED_exit (s : State) : State :=
  let s := kobject_put s
  let s := hwCall s (HwCall.gpio_set_value s.gpioLED 0)
  let s := hwCall s (HwCall.gpio_unexport s.gpioLED)
  hwCall s (HwCall.gpio_free s.gpioLED)

/-! ## Observations -/

/-- The level a pin was last driven to according to the trace: by `gpio_set_value`, or by a
`gpio_direction_output` that reported success.  `none` when it was never driven. -/
def pinLevel (hw : List HwCall) (gpio : Nat) : Option Bool :=
  hw.foldl (fun lvl c =>
    match c with
    | HwCall.gpio_set_value g v => if g = gpio then some (v != 0) else lvl
    | HwCall.gpio_direction_output g v r => if g = gpio ∧ r = 0 then some (v != 0) else lvl
    | _ => lvl) none

/-- Some kobject of this name is present in sysfs. -/
def kobjPresent (s : State) (k : List Char) : Bool :=
  s.sysfs.any (fun o => o.name == k)

/-- The groups reachable below the kobject of this name. -/
def groupsOf (s : State) (k : List Char) : List AttrGroup :=
  (s.sysfs.filter (fun o => o.name == k)).flatMap Kobject.groups

/-- An environment in which every kernel call succeeds. -/
def envOk : Env :=
  { kobject_create_ok := true, sysfs_create_group_ret := 0, gpio_request_ret := 0,
    gpio_direction_output_ret := 0, gpio_export_ret := 0, gpioLED_after_overflow := 0 }

/-- An environment in which the sysfs calls succeed and the pin cannot be claimed:
`gpio_request` reports `-EBUSY` and `gpio_direction_output` reports `-EINVAL`. -/
def envPinBusy : Env :=
  { kobject_create_ok := true, sysfs_create_group_ret := 0, gpio_request_ret := -EBUSY,
    gpio_direction_output_ret := -EINVAL, gpio_export_ret := -EINVAL,
    gpioLED_after_overflow := 0 }

/-- An environment in which the kobject is created and `sysfs_create_group` reports
`-EEXIST`. -/
def envGroupExists : Env :=
  { kobject_create_ok := true, sysfs_create_group_ret := -EEXIST, gpio_request_ret := 0,
    gpio_direction_output_ret := 0, gpio_export_ret := 0, gpioLED_after_overflow := 0 }

/-- An environment in which every kernel call succeeds, for a build that places `gpioLED`
eight bytes behind the start of `ledName`, run with pin 1000: the terminator of "gpio1000"
replaces the low byte of `gpioLED`, which turns 1000 into 768. -/
def envAdjacent1000 : Env :=
  { kobject_create_ok := true, sysfs_create_group_ret := 0, gpio_request_ret := 0,
    gpio_direction_output_ret := 0, gpio_export_ret := 0, gpioLED_after_overflow := 768 }

/-- The loaded module right after a successful `ebbLED_init` with the default pin. -/
def loaded76 : State := (ebbLED_init envOk (initial 76)).2

/-! ## Sequences of operations -/

/-- The entry points of the module. -/
inductive Op where
  | init (env : Env)
  | read
  | write (buf : List Char) (count : Nat)
  | exit
  deriving DecidableEq, Repr

/-- The state a write leaves behind: the one `mode_store` returns, and the unchanged state
when the call ended in a fault, which only ends the writer. -/
def after_write (s : State) (r : Except Fault (Int × State)) : State :=
  match r with
  | Except.ok (_, s1) => s1
  | Except.error _ => s

/-- One entry point run on a state. -/
def step (s : State) : Op → State
  | Op.init env => (ebbLED_init env s).2
  | Op.read => (mode_show s).2
  | Op.write buf count => after_write s (mode_store s buf count)
  | Op.exit => ebbLED_exit s

/-- A finite sequence of entry points run from a state. -/
def run (s : State) (ops : List Op) : State :=
  ops.foldl step s

/-! ## The write protocol of the specification -/

theorem mode_show_state (s : State) : (mode_show s).2 = s := by
  unfold mode_show
  split_ifs <;> rfl

theorem after_write_mode (s : State) (buf : List Char) (count : Nat) :
    (after_write s (mode_store s buf count)).mode = s.mode := by
  unfold mode_store after_write hwCall
  cases sscanf_d buf <;> rfl

theorem sprintf_ledName_mode (env : Env) (s : State) :
    (sprintf_ledName env s).mode = s.mode := rfl

theorem kobject_put_mode (s : State) : (kobject_put s).mode = s.mode := by
  unfold kobject_put
  cases s.ebb_kobj <;> rfl

theorem ebbLED_init_mode (env : Env) (s : State) : (ebbLED_init env s).2.mode = s.mode := by
  unfold ebbLED_init
  simp only []
  split_ifs
  · rfl
  · rw [kobject_put_mode]
    rfl
  · rfl

theorem ebbLED_exit_mode (s : State) : (ebbLED_exit s).mode = s.mode := by
  unfold ebbLED_exit hwCall
  simp only []
  exact kobject_put_mode s

theorem step_mode (s : State) (op : Op) : (step s op).mode = s.mode := by
  cases op with
  | init env => exact ebbLED_init_mode env s
  | read => simp [step, mode_show_state]
  | write buf count => exact after_write_mode s buf count
  | exit => exact ebbLED_exit_mode s

theorem run_mode (ops : List Op) (s : State) : (run s ops).mode = s.mode := by
  induction ops generalizing s with
  | nil => rfl
  | cons op rest ih =>
    have h : run s (op :: rest) = run (step s op) rest := rfl
    rw [h, ih, step_mode]

/-! ## The read handler -/

/-- C2: `mode_show` yields exactly the text "off\n" with length 4 in every state whose
`mode` is 0 and exactly "on\n" with length 3 in every state whose `mode` is 1, and the state
after the call (globals, sysfs registry and GPIO trace) is the state before it. -/
theorem mode_show_text (s : State) :
    mode_show { s with mode := 0 } = (some ("off\n".toList, 4), { s with mode := 0 })
    ∧ mode_show { s with mode := 1 } = (some ("on\n".toList, 3), { s with mode := 1 })
    ∧ "off\n".toList.length = 4 ∧ "on\n".toList.length = 3
    ∧ (mode_show s).2 = s := by
  refine ⟨?_, ?_, ?_, ?_, mode_show_state s⟩
  · simp [mode_show]
  · simp [mode_show]
  · rfl
  · rfl

/-! ## The write handler -/

/-- C1: on the freshly loaded module the text "1" is read as the number 1, which `sscanf`
stores through the value of `mode`, 0, and not into `mode`: the call ends in a fault
before `gpio_set_value` and `return count`, `mode` is still 0 afterwards, and `mode_show`
still yields "off\n", not "on\n". -/
theorem write_one_reads_off :
    sscanf_d "1".toList = some 1
    ∧ loaded76.mode = 0
    ∧ mode_store loaded76 "1".toList 1 = Except.error (Fault.store_through_int 0 1)
    ∧ (step loaded76 (Op.write "1".toList 1)).mode = 0
    ∧ (step loaded76 (Op.write "1".toList 1)).hw = loaded76.hw
    ∧ (mode_show (step loaded76 (Op.write "1".toList 1))).1 = some ("off\n".toList, 4)
    ∧ (mode_show (step loaded76 (Op.write "1".toList 1))).1 ≠ some ("on\n".toList, 3) := by
  decide

/-- What `ebbLED_init` returns: `-ENOMEM` without a kobject, otherwise the status of
`sysfs_create_group`. -/
theorem ebbLED_init_ret (env : Env) (s : State) :
    (ebbLED_init env s).1 =
      if env.kobject_create_ok = false then -ENOMEM else env.sysfs_create_group_ret := by
  unfold ebbLED_init
  simp only []
  split_ifs <;> rfl

/-- When `ebbLED_init` returns 0 the kobject was created and the group registered. -/
theorem ebbLED_init_ok (env : Env) (s : State) (h : (ebbLED_init env s).1 = 0) :
    env.kobject_create_ok = true ∧ env.sysfs_create_group_ret = 0 := by
  rw [ebbLED_init_ret] at h
  split_ifs at h with hk
  · simp [ENOMEM] at h
  · exact ⟨by simpa using hk, h⟩

/-- The digits of a pin number below 100 are at most two and hold no NUL. -/
theorem digits_small (N : Nat) (hN : N ≤ 99) :
    (Nat.toDigits 10 N).length ≤ 2 ∧ (Nat.toDigits 10 N).all (fun c => c != NUL) = true := by
  interval_cases N <;> decide

/-- For a pin number below 2^31 the `%d` conversion prints its decimal digits. -/
theorem fmt_d_toInt32 (N : Nat) (hN : N < 2 ^ 31) : fmt_d (toInt32 N) = Nat.toDigits 10 N := by
  have h1 : N % 2 ^ 32 = N := Nat.mod_eq_of_lt (by omega)
  have h2 : toInt32 N = (N : Int) := by
    unfold toInt32
    rw [h1, if_pos hN]
  rw [h2]
  unfold fmt_d
  rw [if_neg (by omega)]
  simp

/-- A pin number from 2^31 on is printed with a minus sign. -/
theorem sprintf_gpio_signed :
    sprintf_gpio 2147483648 = "gpio-2147483648".toList ++ [NUL] := by
  decide

/-- The C string that starts with a text free of NUL followed by a NUL is that text. -/
theorem cstr_terminated (pre rest : List Char)
    (hnul : pre.all (fun c => c != NUL) = true) :
    cstr (pre ++ [NUL] ++ rest) = pre := by
  unfold cstr
  rw [List.append_assoc, List.takeWhile_append_of_pos]
  · simp
  · intro c hcmem
    exact (List.all_eq_true.mp hnul) c hcmem

/-- After the name of a pin below 100 was printed, the string at `ledName` is "gpio" with the
digits of the pin, nothing lies behind the array, and `gpioLED` is what it was. -/
theorem sprintf_ledName_small (env : Env) (N : Nat) (hN : N ≤ 99) :
    cstr ((sprintf_ledName env (initial N)).ledName
          ++ (sprintf_ledName env (initial N)).past_ledName)
      = "gpio".toList ++ Nat.toDigits 10 N
    ∧ (sprintf_ledName env (initial N)).past_ledName = []
    ∧ (sprintf_ledName env (initial N)).gpioLED = N := by
  obtain ⟨hlen, hnul⟩ := digits_small N hN
  have hb : sprintf_gpio N = ("gpio".toList ++ Nat.toDigits 10 N) ++ [NUL] := by
    unfold sprintf_gpio
    rw [fmt_d_toInt32 N (by omega)]
  have hl : (("gpio".toList ++ Nat.toDigits 10 N) ++ [NUL]).length ≤ LEDNAME_SIZE := by
    simp [LEDNAME_SIZE]
    omega
  have hpast : (sprintf_ledName env (initial N)).past_ledName = [] := by
    show (sprintf_gpio N).drop LEDNAME_SIZE = []
    rw [hb]
    exact List.drop_eq_nil_of_le hl
  refine ⟨?_, hpast, ?_⟩
  · rw [hpast, List.append_nil]
    show cstr ((sprintf_gpio N).take LEDNAME_SIZE
        ++ (initial N).ledName.drop (sprintf_gpio N).length) = _
    rw [hb, List.take_of_length_le hl]
    apply cstr_terminated
    rw [List.all_append, hnul]
    decide
  · show (if (sprintf_gpio N).length ≤ LEDNAME_SIZE then N else env.gpioLED_after_overflow) = N
    rw [hb, if_pos hl]

/-- The state after `ebbLED_init` on a fresh module with a pin below 100 when both sysfs
calls succeed. -/
theorem ebbLED_init_success (env : Env) (N : Nat) (hN : N ≤ 99)
    (hk : env.kobject_create_ok = true) (hg : env.sysfs_create_group_ret = 0) :
    ebbLED_init env (initial N) =
      (0, { gpioLED := N
            ledName := (sprintf_ledName env (initial N)).ledName
            mode := 0
            ledOn := 1
            ebb_kobj := some "ebb".toList
            sysfs := [{ name := "ebb".toList,
                        groups := [{ name := "gpio".toList ++ Nat.toDigits 10 N,
                                     attrs := ["mode".toList] }] }]
            hw := [HwCall.gpio_request N "sysfs".toList env.gpio_request_ret,
                   HwCall.gpio_direction_output N 1 env.gpio_direction_output_ret,
                   HwCall.gpio_export N true env.gpio_export_ret]
            past_ledName := [] }) := by
  obtain ⟨hname, hpast, hpin⟩ := sprintf_ledName_small env N hN
  have hm : (sprintf_ledName env (initial N)).mode = 0 := rfl
  have ho : (sprintf_ledName env (initial N)).ledOn = 0 := rfl
  have hs : (sprintf_ledName env (initial N)).sysfs = [] := rfl
  have hh : (sprintf_ledName env (initial N)).hw = [] := rfl
  have hname1 : cstr (sprintf_ledName env (initial N)).ledName
      = 'g' :: 'p' :: 'i' :: 'o' :: Nat.toDigits 10 N := by
    rw [hpast, List.append_nil] at hname
    exact hname
  simp [ebbLED_init, hk, hg, sysfs_add_group, hwCall, attr_group_name, hname1, hpast, hpin,
    hm, ho, hs, hh]

/-- With pin 1000 the name takes nine bytes: `ledName` keeps "gpio100", the bytes "0" and
NUL lie behind it, the group is registered under the name read through the pointer,
"gpio1000", and the GPIO calls are made on what `gpioLED` holds afterwards. -/
theorem init_overflow_1000 :
    (ebbLED_init envAdjacent1000 (initial 1000)).1 = 0
    ∧ (ebbLED_init envAdjacent1000 (initial 1000)).2.ledName = "gpio100".toList
    ∧ (ebbLED_init envAdjacent1000 (initial 1000)).2.past_ledName = ['0', NUL]
    ∧ groupsOf (ebbLED_init envAdjacent1000 (initial 1000)).2 "ebb".toList =
        [{ name := "gpio1000".toList, attrs := ["mode".toList] }]
    ∧ (ebbLED_init envAdjacent1000 (initial 1000)).2.hw =
        [HwCall.gpio_request 768 "sysfs".toList 0, HwCall.gpio_direction_output 768 1 0,
         HwCall.gpio_export 768 true 0] := by
  decide

/-- The level of a pin after the three GPIO calls of `ebbLED_init`: high when
`gpio_direction_output` reported success, never driven otherwise. -/
theorem pinLevel_init (N : Nat) (r1 r2 r3 : Int) :
    pinLevel [HwCall.gpio_request N "sysfs".toList r1, HwCall.gpio_direction_output N 1 r2,
        HwCall.gpio_export N true r3] N
      = if r2 = 0 then some true else none := by
  by_cases h : r2 = 0 <;> simp [pinLevel, h]

/-- C4, as stated, fails: with the default pin and every kernel call succeeding,
`ebbLED_init` returns 0 and the pin was driven high, but `mode` is 0, not 1, and
`mode_show` yields "off\n", not "on\n". -/
theorem init_mode_stays_off :
    (ebbLED_init envOk (initial 76)).1 = 0
    ∧ (ebbLED_init envOk (initial 76)).2.mode = 0
    ∧ (ebbLED_init envOk (initial 76)).2.mode ≠ 1
    ∧ (mode_show (ebbLED_init envOk (initial 76)).2).1 = some ("off\n".toList, 4)
    ∧ (mode_show (ebbLED_init envOk (initial 76)).2).1 ≠ some ("on\n".toList, 3)
    ∧ pinLevel (ebbLED_init envOk (initial 76)).2.hw 76 = some true := by
  decide

/-- C4, amended: after `ebbLED_init` has returned 0 on a fresh module with a pin number up
to 99, `ledOn` is 1 and the GPIO layer was asked, after `gpio_request`, to make the pin an
output with level 1, so that the pin is high when that call reported success and was not
driven otherwise; `mode` is still 0, so `mode_show` yields "off\n". -/
theorem init_sets_ledOn_only (env : Env) (N : Nat) (hN : N ≤ 99)
    (h : (ebbLED_init env (initial N)).1 = 0) :
    (ebbLED_init env (initial N)).2.ledOn = 1
    ∧ (ebbLED_init env (initial N)).2.mode = 0
    ∧ (mode_show (ebbLED_init env (initial N)).2).1 = some ("off\n".toList, 4)
    ∧ (ebbLED_init env (initial N)).2.hw =
        [HwCall.gpio_request N "sysfs".toList env.gpio_request_ret,
         HwCall.gpio_direction_output N 1 env.gpio_direction_output_ret,
         HwCall.gpio_export N true env.gpio_export_ret]
    ∧ pinLevel (ebbLED_init env (initial N)).2.hw N =
        (if env.gpio_direction_output_ret = 0 then some true else none) := by
  obtain ⟨hk, hg⟩ := ebbLED_init_ok env (initial N) h
  rw [ebbLED_init_success env N hN hk hg]
  refine ⟨rfl, rfl, ?_, rfl, pinLevel_init N _ _ _⟩
  simp [mode_show]

/-- C4, amended, at the default pin with every kernel call succeeding. -/
theorem init_sets_ledOn_only_witness :
    (76 : Nat) ≤ 99 ∧ (ebbLED_init envOk (initial 76)).1 = 0
    ∧ (ebbLED_init envOk (initial 76)).2.ledOn = 1
    ∧ (ebbLED_init envOk (initial 76)).2.mode = 0
    ∧ (mode_show (ebbLED_init envOk (initial 76)).2).1 = some ("off\n".toList, 4)
    ∧ (ebbLED_init envOk (initial 76)).2.hw =
        [HwCall.gpio_request 76 "sysfs".toList envOk.gpio_request_ret,
         HwCall.gpio_direction_output 76 1 envOk.gpio_direction_output_ret,
         HwCall.gpio_export 76 true envOk.gpio_export_ret]
    ∧ pinLevel (ebbLED_init envOk (initial 76)).2.hw 76 =
        (if envOk.gpio_direction_output_ret = 0 then some true else none) :=
  ⟨by decide, by decide, init_sets_ledOn_only envOk 76 (by decide) (by decide)⟩

/-- C5, as stated, fails: when `gpio_request` and `gpio_direction_output` report failure
after the group was registered, `ebbLED_init` returns 0, not an error, and both the
kobject `ebb` and its group `gpio76` are still present. -/
theorem init_keeps_group_when_pin_busy :
    envPinBusy.gpio_request_ret ≠ 0 ∧ envPinBusy.gpio_direction_output_ret ≠ 0
    ∧ (ebbLED_init envPinBusy (initial 76)).1 = 0
    ∧ kobjPresent (ebbLED_init envPinBusy (initial 76)).2 "ebb".toList = true
    ∧ groupsOf (ebbLED_init envPinBusy (initial 76)).2 "ebb".toList =
        [{ name := "gpio76".toList, attrs := ["mode".toList] }] := by
  decide

/-- C5, amended: for every pin number up to 99, when the kobject was created and the group
registered, `ebbLED_init` returns 0 whatever `gpio_request` and `gpio_direction_output`
report, the three GPIO calls are all made on that pin, and the kobject `ebb` with its one
group, named "gpio" with the digits of the pin, stays registered. -/
theorem init_ignores_gpio_status (env : Env) (N : Nat) (hN : N ≤ 99)
    (hk : env.kobject_create_ok = true) (hg : env.sysfs_create_group_ret = 0)
    (_hf : env.gpio_request_ret ≠ 0 ∨ env.gpio_direction_output_ret ≠ 0) :
    (ebbLED_init env (initial N)).1 = 0
    ∧ kobjPresent (ebbLED_init env (initial N)).2 "ebb".toList = true
    ∧ groupsOf (ebbLED_init env (initial N)).2 "ebb".toList =
        [{ name := "gpio".toList ++ Nat.toDigits 10 N, attrs := ["mode".toList] }]
    ∧ (ebbLED_init env (initial N)).2.hw =
        [HwCall.gpio_request N "sysfs".toList env.gpio_request_ret,
         HwCall.gpio_direction_output N 1 env.gpio_direction_output_ret,
         HwCall.gpio_export N true env.gpio_export_ret] := by
  rw [ebbLED_init_success env N hN hk hg]
  simp [kobjPresent, groupsOf]

/-- C5, amended, at the default pin with a pin that cannot be claimed. -/
theorem init_ignores_gpio_status_witness :
    (76 : Nat) ≤ 99
    ∧ (envPinBusy.gpio_request_ret ≠ 0 ∨ envPinBusy.gpio_direction_output_ret ≠ 0)
    ∧ (ebbLED_init envPinBusy (initial 76)).1 = 0
    ∧ kobjPresent (ebbLED_init envPinBusy (initial 76)).2 "ebb".toList = true
    ∧ groupsOf (ebbLED_init envPinBusy (initial 76)).2 "ebb".toList =
        [{ name := "gpio".toList ++ Nat.toDigits 10 76, attrs := ["mode".toList] }]
    ∧ (ebbLED_init envPinBusy (initial 76)).2.hw =
        [HwCall.gpio_request 76 "sysfs".toList envPinBusy.gpio_request_ret,
         HwCall.gpio_direction_output 76 1 envPinBusy.gpio_direction_output_ret,
         HwCall.gpio_export 76 true envPinBusy.gpio_export_ret] :=
  ⟨by decide, by decide,
    init_ignores_gpio_status envPinBusy 76 (by decide) rfl rfl (by decide)⟩

/-- C7, as stated, fails: when `sysfs_create_group` reports `-EEXIST`, `ebbLED_init` returns
`-EEXIST`, which is not `-ENOMEM`. -/
theorem init_group_error_not_enomem :
    envGroupExists.sysfs_create_group_ret ≠ 0
    ∧ (ebbLED_init envGroupExists (initial 76)).1 = -EEXIST
    ∧ (ebbLED_init envGroupExists (initial 76)).1 ≠ -ENOMEM := by
  decide

/-- C7, amended: when the kobject cannot be created `ebbLED_init` returns `-ENOMEM`, and when
`sysfs_create_group` fails it returns the status that call reported; in both cases the
value is not 0, no GPIO call was made and sysfs holds no object. -/
theorem init_registration_failure (env : Env) (N : Nat)
    (h : env.kobject_create_ok = false ∨ env.sysfs_create_group_ret ≠ 0) :
    (ebbLED_init env (initial N)).1 =
        (if env.kobject_create_ok = false then -ENOMEM else env.sysfs_create_group_ret)
    ∧ (ebbLED_init env (initial N)).1 ≠ 0
    ∧ (ebbLED_init env (initial N)).2.hw = []
    ∧ (ebbLED_init env (initial N)).2.sysfs = [] := by
  by_cases hk : env.kobject_create_ok = false
  · simp [ebbLED_init, hk, ENOMEM, sprintf_ledName, initial]
  · have hg : env.sysfs_create_group_ret ≠ 0 := by
      rcases h with h | h
      · exact absurd h hk
      · exact h
    simp [ebbLED_init, hk, hg, kobject_put, sprintf_ledName, initial]

/-- C7, amended, at the default pin when `sysfs_create_group` reports `-EEXIST`. -/
theorem init_registration_failure_witness :
    (envGroupExists.kobject_create_ok = false ∨ envGroupExists.sysfs_create_group_ret ≠ 0)
    ∧ (ebbLED_init envGroupExists (initial 76)).1 =
        (if envGroupExists.kobject_create_ok = false then -ENOMEM
         else envGroupExists.sysfs_create_group_ret)
    ∧ (ebbLED_init envGroupExists (initial 76)).1 ≠ 0
    ∧ (ebbLED_init envGroupExists (initial 76)).2.hw = []
    ∧ (ebbLED_init envGroupExists (initial 76)).2.sysfs = [] :=
  ⟨by decide, init_registration_failure envGroupExists 76 (by decide)⟩

/-! ## Teardown -/

/-- The level of a pin after a `gpio_set_value` on it was appended to the trace. -/
theorem pinLevel_exit (hw : List HwCall) (g : Nat) :
    pinLevel (hw ++ [HwCall.gpio_set_value g 0, HwCall.gpio_unexport g, HwCall.gpio_free g]) g
      = some false := by
  simp [pinLevel, List.foldl_append]

/-- C8: in every state of the loaded module (`ebb_kobj` points to its kobject; `mode`, trace
and pin level arbitrary) `ebbLED_exit` removes the kobject and with it the attribute group
from sysfs and appends to the GPIO trace exactly `gpio_set_value` with level 0,
`gpio_unexport` and `gpio_free` on the configured pin, in this order, so that the level the
pin was last driven to is low. -/
theorem exit_effect (s : State) (k : List Char) (hk : s.ebb_kobj = some k) :
    kobjPresent (ebbLED_exit s) k = false
    ∧ groupsOf (ebbLED_exit s) k = []
    ∧ (ebbLED_exit s).hw = s.hw ++ [HwCall.gpio_set_value s.gpioLED 0,
        HwCall.gpio_unexport s.gpioLED, HwCall.gpio_free s.gpioLED]
    ∧ pinLevel (ebbLED_exit s).hw s.gpioLED = some false := by
  have hs : (ebbLED_exit s).sysfs = s.sysfs.filter (fun o => o.name != k) := by
    simp [ebbLED_exit, kobject_put, hk, hwCall]
  have hh : (ebbLED_exit s).hw = s.hw ++ [HwCall.gpio_set_value s.gpioLED 0,
      HwCall.gpio_unexport s.gpioLED, HwCall.gpio_free s.gpioLED] := by
    simp [ebbLED_exit, kobject_put, hk, hwCall]
  refine ⟨?_, ?_, hh, ?_⟩
  · unfold kobjPresent
    rw [hs]
    simp [List.any_filter]
  · unfold groupsOf
    rw [hs, List.filter_filter]
    simp
  · rw [hh]
    exact pinLevel_exit s.hw s.gpioLED

/-- C8 at the module loaded with the default pin, whose pin is high before teardown. -/
theorem exit_effect_witness :
    loaded76.ebb_kobj = some "ebb".toList
    ∧ pinLevel loaded76.hw 76 = some true
    ∧ kobjPresent loaded76 "ebb".toList = true
    ∧ kobjPresent (ebbLED_exit loaded76) "ebb".toList = false
    ∧ groupsOf (ebbLED_exit loaded76) "ebb".toList = []
    ∧ (ebbLED_exit loaded76).hw = loaded76.hw ++ [HwCall.gpio_set_value loaded76.gpioLED 0,
        HwCall.gpio_unexport loaded76.gpioLED, HwCall.gpio_free loaded76.gpioLED]
    ∧ pinLevel (ebbLED_exit loaded76).hw loaded76.gpioLED = some false :=
  ⟨by decide, by decide, by decide, exit_effect loaded76 "ebb".toList (by decide)⟩

/-! ## Reachable states -/

/-- C9: in every state reached from the fresh module, for any pin number, by any finite
sequence of `ebbLED_init`, `mode_show`, `mode_store` with any buffer and count, and
`ebbLED_exit`, `mode` is 0 or 1, and `mode_show` yields "off\n" or "on\n". -/
theorem reachable_mode_valid (N : Nat) (ops : List Op) :
    ((run (initial N) ops).mode = 0 ∨ (run (initial N) ops).mode = 1)
    ∧ ((mode_show (run (initial N) ops)).1 = some ("off\n".toList, 4)
       ∨ (mode_show (run (initial N) ops)).1 = some ("on\n".toList, 3)) := by
  have h : (run (initial N) ops).mode = 0 := by
    rw [run_mode]
    rfl
  refine ⟨Or.inl h, Or.inl ?_⟩
  simp [mode_show, h]

end CtrlGpio
